import Mathlib

/-!
Verification of the query-builder and hierarchical-view subsystem of a
genomic CRISPR data-warehouse web application.

The development shallowly embeds the JavaScript sources:
  * `src/searchArg.js`   — `SearchArguments`, `parseSearchQuery`, `buildSearchQuery`
  * `src/model/GeneView.js` — `GeneView`, `CellLineView`, `SgRNAView`
  * `src/server.js`      — `getGeneViewResults`, the `/api/records` sort guard

JavaScript strings are Lean `String`s; JavaScript numbers that matter to the
claims are `Int`/`ℚ` (with `none : Option _` standing for `NaN` where a parse
can fail); `Map` objects are insertion-ordered association lists.
-/

/-! ### JavaScript string and number primitives -/

/-- Numeric value of a list of decimal digit characters (most significant first). -/
def digitsToNat (ds : List Char) : Nat :=
  ds.foldl (fun a c => a * 10 + (c.toNat - 48)) 0

/-- Consume an optional leading sign, returning the sign and the rest. -/
def scanSign : List Char → Int × List Char
  | '+' :: t => (1, t)
  | '-' :: t => (-1, t)
  | cs => (1, cs)

/-- Models JavaScript `String.prototype.trim`: drop leading and trailing
whitespace characters.  (Restricted to ASCII whitespace, which covers every
string the claims exercise.) -/
def jsTrim (s : String) : String :=
  ⟨((s.data.dropWhile Char.isWhitespace).reverse.dropWhile Char.isWhitespace).reverse⟩

/-- Models JavaScript `toUpperCase` (ASCII). -/
def jsToUpperCase (s : String) : String :=
  ⟨s.data.map Char.toUpper⟩

/-- Models JavaScript global `parseInt` with no radix argument, restricted to
base-10 literals (no `0x` prefix, which nothing in the repository feeds it):
skip leading whitespace, read an optional sign and then the longest prefix of
decimal digits; `none` models `NaN` (no digits found). -/
def jsParseInt (s : String) : Option Int :=
  let cs := s.data.dropWhile Char.isWhitespace
  let sc := scanSign cs
  let ds := sc.2.takeWhile Char.isDigit
  if ds.isEmpty then none else some (sc.1 * (digitsToNat ds : Int))

/-- The syntactic parts of an unsigned decimal literal: integer digits,
fraction digits, signed exponent. -/
structure DecLit where
  intDs : List Char
  fracDs : List Char
  exp : Int
deriving DecidableEq, Repr

/-- Exact rational value of an unsigned decimal literal. -/
def DecLit.value (l : DecLit) : ℚ :=
  ((digitsToNat l.intDs : ℚ) + (digitsToNat l.fracDs : ℚ) / (10 : ℚ) ^ l.fracDs.length)
    * (10 : ℚ) ^ l.exp

/-- Scan an unsigned decimal literal `digits [. digits] [e/E [sign] digits]`
from the front of a character list, returning its parts and the unconsumed
rest; `none` when no digit is present.  An exponent marker that is not
followed by digits is left unconsumed, as in JavaScript `parseFloat`. -/
def scanUnsignedDecimal (cs : List Char) : Option (DecLit × List Char) :=
  let intDs := cs.takeWhile Char.isDigit
  let rest1 := cs.dropWhile Char.isDigit
  let fracSplit : List Char × List Char :=
    match rest1 with
    | '.' :: t => (t.takeWhile Char.isDigit, t.dropWhile Char.isDigit)
    | _ => ([], rest1)
  let fracDs := fracSplit.1
  let rest2 := fracSplit.2
  if intDs.isEmpty ∧ fracDs.isEmpty then none
  else
    let expSplit : Int × List Char :=
      match rest2 with
      | c :: t =>
        if c = 'e' ∨ c = 'E' then
          let esc := scanSign t
          let eds := esc.2.takeWhile Char.isDigit
          if eds.isEmpty then (0, rest2)
          else (esc.1 * (digitsToNat eds : Int), esc.2.dropWhile Char.isDigit)
        else (0, rest2)
      | [] => (0, rest2)
    some (⟨intDs, fracDs, expSplit.1⟩, expSplit.2)

/-- Models JavaScript global `parseFloat`, restricted to finite decimal
literals (the `Infinity` spelling, which nothing in the repository feeds it,
is not modelled): skip leading whitespace, read an optional sign, then the
longest decimal-literal prefix; `none` models `NaN`. -/
def jsParseFloat (s : String) : Option ℚ :=
  let cs := s.data.dropWhile Char.isWhitespace
  let sc := scanSign cs
  match scanUnsignedDecimal sc.2 with
  | some qr => some (sc.1 * qr.1.value)
  | none => none

/-- Models ECMAScript `ToNumber` on a string, restricted to finite decimal
literals: trim, the empty string converts to `0`, otherwise the whole string
must be a signed decimal literal; `none` models `NaN`. -/
def jsStringToNumber (s : String) : Option ℚ :=
  let t := jsTrim s
  if t = "" then some 0
  else
    let sc := scanSign t.data
    match scanUnsignedDecimal sc.2 with
    | some qr => if qr.2.isEmpty then some (sc.1 * qr.1.value) else none
    | none => none

/-- Models JavaScript global `isNaN` applied to a string: `ToNumber` yields
`NaN`.  Note `isNaN(" ")` is `false` because whitespace converts to `0`. -/
def jsIsNaN (s : String) : Bool :=
  (jsStringToNumber s).isNone

/-- Truthiness of an optional string: `undefined` and the empty string are
falsy, every other string is truthy. -/
def jsTruthy : Option String → Bool
  | none => false
  | some s => s ≠ ""

/-! ### Embedding of `src/searchArg.js` -/

/-- A value bound as a query parameter: a string, a finite number, or `NaN`
(which `parseInt`/`parseFloat` can produce). -/
inductive SqlValue
  | vstr (s : String)
  | vnum (q : ℚ)
  | vnan
deriving DecidableEq, Repr

/-- Wrap a `parseInt` result (`none` = `NaN`) as a bound value. -/
def intParamOrNaN : Option Int → SqlValue
  | none => .vnan
  | some n => .vnum n

/-- Wrap a `parseFloat` result (`none` = `NaN`) as a bound value. -/
def floatParamOrNaN : Option ℚ → SqlValue
  | none => .vnan
  | some q => .vnum q

/-- The Express request query parameters read by `parseSearchQuery` and the
route handlers; `none` models an absent (`undefined`) parameter. -/
structure QueryParams where
  query : Option String := none
  chr : Option String := none
  strand : Option String := none
  effect : Option String := none
  startPos : Option String := none
  endPos : Option String := none
  cellline : Option String := none
  condition : Option String := none
  minLog2fc : Option String := none
  maxLog2fc : Option String := none
  screentype : Option String := none
  cas : Option String := none
  pubmed : Option String := none
deriving DecidableEq, Repr

/-- The `SearchArguments` accumulator class: a parallel pair of condition
fragments and bound parameter values. -/
structure SearchArguments where
  conditions : List String
  params : List SqlValue
deriving DecidableEq, Repr

/-- The `new SearchArguments()` constructor state. -/
def SearchArguments.empty : SearchArguments := ⟨[], []⟩

/-- The `addCondition` method: push one fragment and one bound value. -/
def SearchArguments.addCondition (sa : SearchArguments) (c : String) (v : SqlValue) :
    SearchArguments :=
  { conditions := sa.conditions ++ [c], params := sa.params ++ [v] }

/-- The `buildWhereClause` method. -/
def SearchArguments.buildWhereClause (sa : SearchArguments) : String :=
  if sa.conditions.isEmpty then "" else " WHERE " ++ String.intercalate " AND " sa.conditions

/-- The `getParams` method. -/
def SearchArguments.getParams (sa : SearchArguments) : List SqlValue := sa.params

/-- The five-column free-text search fragment of `parseSearchQuery`. -/
def queryFragment : String :=
  "(symbol LIKE ? OR ensg LIKE ? OR sequence LIKE ? OR cellline LIKE ? OR condition LIKE ?)"

/-- The general text-search block of `parseSearchQuery`: one `addCondition`
call plus four extra pushes of the same wildcarded value. -/
def stepQuery (qp : QueryParams) (sa : SearchArguments) : SearchArguments :=
  match qp.query with
  | none => sa
  | some s =>
    if s ≠ "" ∧ jsTrim s ≠ "" then
      let q := "%" ++ jsTrim s ++ "%"
      let sa1 := sa.addCondition queryFragment (.vstr q)
      { sa1 with params := sa1.params ++ [.vstr q, .vstr q, .vstr q, .vstr q] }
    else sa

/-- The chromosome filter block of `parseSearchQuery`. -/
def stepChr (qp : QueryParams) (sa : SearchArguments) : SearchArguments :=
  match qp.chr with
  | none => sa
  | some s =>
    if s ≠ "" ∧ jsTrim s ≠ "" then sa.addCondition "chr = ?" (.vstr (jsTrim s)) else sa

/-- The strand filter block of `parseSearchQuery`. -/
def stepStrand (qp : QueryParams) (sa : SearchArguments) : SearchArguments :=
  match qp.strand with
  | none => sa
  | some s =>
    if s ≠ "" ∧ (s = "+" ∨ s = "-") then sa.addCondition "strand = ?" (.vstr s) else sa

/-- The effect filter block of `parseSearchQuery`. -/
def stepEffect (qp : QueryParams) (sa : SearchArguments) : SearchArguments :=
  match qp.effect with
  | none => sa
  | some s =>
    if s ≠ "" then
      if s = "up" then sa.addCondition "CAST(log2fc AS REAL) > ?" (.vnum 0)
      else if s = "down" then sa.addCondition "CAST(log2fc AS REAL) < ?" (.vnum 0)
      else sa
    else sa

/-- The start-position range block of `parseSearchQuery`. -/
def stepStartPos (qp : QueryParams) (sa : SearchArguments) : SearchArguments :=
  match qp.startPos with
  | none => sa
  | some s =>
    if s ≠ "" ∧ jsIsNaN s = false then
      sa.addCondition "CAST(start AS INTEGER) >= ?" (intParamOrNaN (jsParseInt s))
    else sa

/-- The end-position range block of `parseSearchQuery`. -/
def stepEndPos (qp : QueryParams) (sa : SearchArguments) : SearchArguments :=
  match qp.endPos with
  | none => sa
  | some s =>
    if s ≠ "" ∧ jsIsNaN s = false then
      sa.addCondition "CAST(end AS INTEGER) <= ?" (intParamOrNaN (jsParseInt s))
    else sa

/-- The cell-line filter block of `parseSearchQuery`. -/
def stepCellline (qp : QueryParams) (sa : SearchArguments) : SearchArguments :=
  match qp.cellline with
  | none => sa
  | some s =>
    if s ≠ "" ∧ jsTrim s ≠ "" then
      sa.addCondition "cellline LIKE ?" (.vstr ("%" ++ jsTrim s ++ "%"))
    else sa

/-- The condition filter block of `parseSearchQuery`. -/
def stepCondition (qp : QueryParams) (sa : SearchArguments) : SearchArguments :=
  match qp.condition with
  | none => sa
  | some s =>
    if s ≠ "" ∧ jsTrim s ≠ "" then
      sa.addCondition "condition LIKE ?" (.vstr ("%" ++ jsTrim s ++ "%"))
    else sa

/-- The minimum-log2fc range block of `parseSearchQuery`. -/
def stepMinLog2fc (qp : QueryParams) (sa : SearchArguments) : SearchArguments :=
  match qp.minLog2fc with
  | none => sa
  | some s =>
    if s ≠ "" ∧ jsIsNaN s = false then
      sa.addCondition "CAST(log2fc AS REAL) >= ?" (floatParamOrNaN (jsParseFloat s))
    else sa

/-- The maximum-log2fc range block of `parseSearchQuery`. -/
def stepMaxLog2fc (qp : QueryParams) (sa : SearchArguments) : SearchArguments :=
  match qp.maxLog2fc with
  | none => sa
  | some s =>
    if s ≠ "" ∧ jsIsNaN s = false then
      sa.addCondition "CAST(log2fc AS REAL) <= ?" (floatParamOrNaN (jsParseFloat s))
    else sa

/-- The screen-type filter block of `parseSearchQuery`. -/
def stepScreentype (qp : QueryParams) (sa : SearchArguments) : SearchArguments :=
  match qp.screentype with
  | none => sa
  | some s =>
    if s ≠ "" ∧ jsTrim s ≠ "" then
      sa.addCondition "screentype LIKE ?" (.vstr ("%" ++ jsTrim s ++ "%"))
    else sa

/-- The Cas-system filter block of `parseSearchQuery`. -/
def stepCas (qp : QueryParams) (sa : SearchArguments) : SearchArguments :=
  match qp.cas with
  | none => sa
  | some s =>
    if s ≠ "" ∧ jsTrim s ≠ "" then
      sa.addCondition "cas LIKE ?" (.vstr ("%" ++ jsTrim s ++ "%"))
    else sa

/-- The PubMed-id filter block of `parseSearchQuery`. -/
def stepPubmed (qp : QueryParams) (sa : SearchArguments) : SearchArguments :=
  match qp.pubmed with
  | none => sa
  | some s =>
    if s ≠ "" ∧ jsTrim s ≠ "" then sa.addCondition "pubmed = ?" (.vstr (jsTrim s)) else sa

/-- The `parseSearchQuery` function: a fresh `SearchArguments` accumulator run
through the thirteen filter blocks in source order. -/
def parseSearchQuery (qp : QueryParams) : SearchArguments :=
  stepPubmed qp (stepCas qp (stepScreentype qp (stepMaxLog2fc qp (stepMinLog2fc qp
    (stepCondition qp (stepCellline qp (stepEndPos qp (stepStartPos qp
      (stepEffect qp (stepStrand qp (stepChr qp (stepQuery qp SearchArguments.empty))))))))))))

/-- The sort-column whitelist of `buildSearchQuery`. -/
def validSortColumns : List String :=
  ["rowid", "start", "end", "chr", "strand", "symbol", "ensg", "log2fc", "effect",
   "cellline", "condition"]

/-- Sort-field validation of `buildSearchQuery`: outside the whitelist the
field falls back to `rowid`. -/
def safeSortBy (sortBy : String) : String :=
  if sortBy ∈ validSortColumns then sortBy else "rowid"

/-- Sort-direction validation of `buildSearchQuery`: anything whose upper-case
form is neither `ASC` nor `DESC` falls back to `ASC`. -/
def safeSortOrder (sortOrder : String) : String :=
  if jsToUpperCase sortOrder ∈ ["ASC", "DESC"] then jsToUpperCase sortOrder else "ASC"

/-- The value returned by `buildSearchQuery`. -/
structure BuiltQuery where
  query : String
  countQuery : String
  params : List SqlValue
deriving DecidableEq, Repr

/-- The `buildSearchQuery` function: conditions from `parseSearchQuery` plus
ORDER BY / LIMIT / OFFSET clauses with the validated sort inputs. -/
def buildSearchQuery (qp : QueryParams) (page limit : Int) (sortBy sortOrder : String) :
    BuiltQuery :=
  let searchArgs := parseSearchQuery qp
  let offset := (page - 1) * limit
  let baseQuery := "SELECT rowid, * FROM genome_crispr"
  let whereClause := searchArgs.buildWhereClause
  let orderClause := " ORDER BY " ++ safeSortBy sortBy ++ " " ++ safeSortOrder sortOrder
  let limitClause := " LIMIT " ++ toString limit ++ " OFFSET " ++ toString offset
  { query := baseQuery ++ whereClause ++ orderClause ++ limitClause
    countQuery := "SELECT COUNT(*) as count FROM genome_crispr" ++ whereClause
    params := searchArgs.getParams }

/-- Number of `?` placeholders in one condition fragment. -/
def countPlaceholders (s : String) : Nat :=
  s.data.countP (· = '?')

/-- Total number of `?` placeholders over a list of condition fragments. -/
def totalPlaceholders (conds : List String) : Nat :=
  (conds.map countPlaceholders).sum

/-- Invariant tying placeholders to bound values: the fragments reference
exactly as many placeholders as there are parameters. -/
def paramBalanced (sa : SearchArguments) : Prop :=
  totalPlaceholders sa.conditions = sa.params.length

/-! ### Embedding of `src/model/GeneView.js` -/

/-- A raw value in a database row: text, an integer, a non-integer number, or
SQL NULL.  `parseInt`/`parseFloat` applied to a non-string first stringify it;
the cases below give the resulting parse directly. -/
inductive DbVal
  | vstr (s : String)
  | vint (n : Int)
  | vnum (q : ℚ)
  | vnull
deriving DecidableEq, Repr

/-- JavaScript `parseInt` applied to a row value (`none` = `NaN`): strings are
parsed, numbers are truncated toward zero, `null` stringifies to a non-numeric
word and parses to `NaN`. -/
def jsParseIntVal : DbVal → Option Int
  | .vstr s => jsParseInt s
  | .vint n => some n
  | .vnum q => some (q.num / (q.den : Int))
  | .vnull => none

/-- JavaScript `parseFloat` applied to a row value (`none` = `NaN`). -/
def jsParseFloatVal : DbVal → Option ℚ
  | .vstr s => jsParseFloat s
  | .vint n => some n
  | .vnum q => some q
  | .vnull => none

/-- JavaScript `a || b` on optional integers: `undefined` and `0` are falsy. -/
def jsOrOpt (a b : Option Int) : Option Int :=
  match a with
  | some n => if n = 0 then b else some n
  | none => b

/-- One row of the flat `genome_crispr` table as consumed by the view models.
Fields the claims never inspect default to empty values so that concrete
counterexamples stay readable. -/
structure DbRow where
  rowid : Option Int := none
  id : Option Int := none
  symbol : String := ""
  ensg : String := ""
  chr : String := ""
  cellline : String := ""
  condition : String := ""
  cas : String := ""
  screentype : String := ""
  pubmed : String := ""
  sequence : String := ""
  start : DbVal := .vnull
  stop : DbVal := .vnull
  strand : String := ""
  log2fc : DbVal := .vnull
  effect : String := ""
  rc_initial : DbVal := .vnull
  rc_final : DbVal := .vnull
deriving DecidableEq, Repr

/-- The `SgRNAView` class: the constructor stores `parseInt(start)` and
`parseInt(end)` (where `none` models `NaN`) and keeps `log2fc` raw.  The
source's `end` field is spelled `stop` because `end` is reserved in Lean. -/
structure SgRNAView where
  id : Option Int
  sequence : String
  start : Option Int
  stop : Option Int
  strand : String
  log2fc : DbVal
  effect : String
  rc_initial : DbVal
  rc_final : DbVal
deriving DecidableEq, Repr

/-- The `SgRNAView` constructor applied to the data object that
`GeneView.addCellLine` builds from a row (`id: cellLineData.id || cellLineData.rowid`). -/
def SgRNAView.ofData (d : DbRow) : SgRNAView :=
  { id := jsOrOpt d.id d.rowid
    sequence := d.sequence
    start := jsParseIntVal d.start
    stop := jsParseIntVal d.stop
    strand := d.strand
    log2fc := d.log2fc
    effect := d.effect
    rc_initial := d.rc_initial
    rc_final := d.rc_final }

/-- The `getMidpoint` method: `Math.floor((start + end) / 2)` when both bounds
parsed, otherwise `null`. -/
def SgRNAView.getMidpoint (sg : SgRNAView) : Option Int :=
  match sg.start, sg.stop with
  | some s, some e => some (Int.fdiv (s + e) 2)
  | _, _ => none

/-- The `getLength` method: `Math.abs(end - start) + 1` when both bounds
parsed, otherwise `null`. -/
def SgRNAView.getLength (sg : SgRNAView) : Option Int :=
  match sg.start, sg.stop with
  | some s, some e => some (((e - s).natAbs : Int) + 1)
  | _, _ => none

/-- The `getFoldChange` method: `Math.pow(2, parseFloat(log2fc))`, or `null`
when `log2fc` does not parse. -/
noncomputable def SgRNAView.getFoldChange (sg : SgRNAView) : Option ℝ :=
  match jsParseFloatVal sg.log2fc with
  | some q => some ((2 : ℝ) ^ (q : ℝ))
  | none => none

/-- The `CellLineView` class: context metadata (taken from the first row seen
for the cell line) plus the accumulated sgRNA list. -/
structure CellLineView where
  name : String
  condition : String
  cas : String
  screentype : String
  pubmed : String
  sgRNAs : List SgRNAView
deriving DecidableEq, Repr

/-- The `GeneView` class: gene identity plus the insertion-ordered `cellLines`
map, modelled as an association list keyed by cell-line name. -/
structure GeneView where
  symbol : String
  ensg : String
  chr : String
  cellLines : List (String × CellLineView)
deriving DecidableEq, Repr

/-- First half of `addCellLine`: create the map entry for the row's cell line
if it is not present yet (metadata from this first row, empty sgRNA list). -/
def ensureCellLine (cls : List (String × CellLineView)) (d : DbRow) :
    List (String × CellLineView) :=
  if d.cellline ∈ cls.map Prod.fst then cls
  else cls ++ [(d.cellline,
    { name := d.cellline, condition := d.condition, cas := d.cas,
      screentype := d.screentype, pubmed := d.pubmed, sgRNAs := [] })]

/-- Second half of `addCellLine`: push one sgRNA onto the entry of the given
cell line (the first matching entry). -/
def pushSgRNA : List (String × CellLineView) → String → SgRNAView →
    List (String × CellLineView)
  | [], _, _ => []
  | (k, cl) :: rest, name, sg =>
    if k = name then (k, { cl with sgRNAs := cl.sgRNAs ++ [sg] }) :: rest
    else (k, cl) :: pushSgRNA rest name sg

/-- The `addCellLine` method of `GeneView`. -/
def GeneView.addCellLine (gv : GeneView) (d : DbRow) : GeneView :=
  { gv with cellLines := pushSgRNA (ensureCellLine gv.cellLines d) d.cellline (SgRNAView.ofData d) }

/-- The `getTotalSgRNACount` method: sum of sgRNA-list lengths over all cell
lines. -/
def GeneView.getTotalSgRNACount (gv : GeneView) : Nat :=
  (gv.cellLines.map (fun kc => kc.2.sgRNAs.length)).sum

/-- The static `GeneView.fromDbRows`: `null` on an empty array, otherwise gene
identity from the first row and one `addCellLine` call per row, each row first
given `id: row.rowid || row.id` by the spread in the source. -/
def GeneView.fromDbRows (rows : List DbRow) : Option GeneView :=
  match rows with
  | [] => none
  | first :: _ =>
    some (rows.foldl
      (fun gv r => gv.addCellLine { r with id := jsOrOpt r.rowid r.id })
      { symbol := first.symbol, ensg := first.ensg, chr := first.chr, cellLines := [] })

/-! ### Embedding of the derived fields of `Gene.fromDbRow` (`src/model/Gene.js`) -/

/-- The parsed `gene.start` of `Gene.fromDbRow`: `!isNaN(start) ? start :
null` over `start = parseInt(row.start)`, i.e. the parse result itself. -/
def Gene.fromDbRow_start (row : DbRow) : Option Int :=
  jsParseIntVal row.start

/-- The parsed `gene.end` of `Gene.fromDbRow`. -/
def Gene.fromDbRow_stop (row : DbRow) : Option Int :=
  jsParseIntVal row.stop

/-- The derived `length` of `Gene.fromDbRow` (Gene.js line 336):
`row.sequence ? row.sequence.length : ((gene.start && gene.end) ?
Math.abs(gene.end - gene.start) + 1 : null)`.  A non-empty sequence is
truthy; a parsed bound is truthy when it is neither `null` nor `0`. -/
def Gene.fromDbRow_length (row : DbRow) : Option Int :=
  if row.sequence ≠ "" then some (row.sequence.length : Int)
  else
    match Gene.fromDbRow_start row, Gene.fromDbRow_stop row with
    | some s, some e => if s ≠ 0 ∧ e ≠ 0 then some (((e - s).natAbs : Int) + 1) else none
    | _, _ => none

/-- The derived `midpoint` of `Gene.fromDbRow` (Gene.js line 337):
`(gene.start && gene.end) ? Math.floor((gene.start + gene.end) / 2) : null`,
with the same truthiness guard treating `0` as absent. -/
def Gene.fromDbRow_midpoint (row : DbRow) : Option Int :=
  match Gene.fromDbRow_start row, Gene.fromDbRow_stop row with
  | some s, some e => if s ≠ 0 ∧ e ≠ 0 then some (Int.fdiv (s + e) 2) else none
  | _, _ => none

/-- The derived `foldChange` of `Gene.fromDbRow` (Gene.js line 338):
`!isNaN(log2fc) ? Math.pow(2, log2fc) : null` over `log2fc =
parseFloat(row.log2fc)`. -/
noncomputable def Gene.fromDbRow_foldChange (row : DbRow) : Option Real :=
  match jsParseFloatVal row.log2fc with
  | some q => some ((2 : Real) ^ (q : Real))
  | none => none

/-! ### Insertion-ordered grouping machinery -/

/-- One step of first-seen deduplication: append the key if it is new. -/
def distinctStep {α : Type} [DecidableEq α] (ks : List α) (s : α) : List α :=
  if s ∈ ks then ks else ks ++ [s]

/-- The distinct elements of a list in first-seen order (the key order of a
JavaScript `Map` filled by insertion). -/
def distinctFirstSeen {α : Type} [DecidableEq α] (l : List α) : List α :=
  l.foldl distinctStep []

/-- One step of `Map`-based grouping: push the element onto its key's group,
creating the group at the end of the map if the key is new. -/
def insertGrouped {α : Type} (key : α → String) :
    List (String × List α) → α → List (String × List α)
  | [], a => [(key a, [a])]
  | (k, g) :: rest, a =>
    if key a = k then (k, g ++ [a]) :: rest
    else (k, g) :: insertGrouped key rest a

/-- Group a list by a string key, preserving first-seen key order and the
relative order of elements inside each group — the behavior of the
`geneGroups` `Map` in `getGeneViewResults`. -/
def groupBy {α : Type} (key : α → String) (l : List α) : List (String × List α) :=
  l.foldl (insertGrouped key) []

/-! ### Embedding of `src/server.js` -/

/-- The grouped payload assembled by `getGeneViewResults` (results hold the
`GeneView.fromDbRows` output for each symbol group, which is `null` only for
an empty group and so never in practice). -/
structure GroupedResult where
  results : List (Option GeneView)
  totalRows : Nat
  totalPages : Nat
  isGeneView : Bool
deriving DecidableEq, Repr

/-- JavaScript `Array.prototype.slice(s, e)` for non-negative bounds. -/
def jsSlice {α : Type} (l : List α) (s e : Nat) : List α :=
  (l.drop s).take (e - s)

/-- The `getGeneViewResults` helper of the server: group the full result set
of matching rows by gene symbol, build one `GeneView` per group, and paginate
the gene views in memory.  `Math.ceil` of the JavaScript division is the
rational ceiling. -/
def getGeneViewResults (allRows : List DbRow) (page limit : Nat) : GroupedResult :=
  let geneGroups := groupBy DbRow.symbol allRows
  let geneViews := geneGroups.map (fun g => GeneView.fromDbRows g.2)
  let totalGenes := geneViews.length
  let totalPages := ⌈(totalGenes : ℚ) / (limit : ℚ)⌉₊
  let offset := (page - 1) * limit
  { results := jsSlice geneViews offset (offset + limit)
    totalRows := totalGenes
    totalPages := totalPages
    isGeneView := true }

/-- The sort-field whitelist of the `/api/records` route. -/
def allowedSortFields : List String :=
  ["rowid", "chr", "start", "end", "strand", "symbol", "ensg", "log2fc", "effect", "cellline"]

/-- Outcome of the `/api/records` handler up to the first storage call: either
an immediate HTTP 400 or the built search query handed to storage. -/
inductive ApiRecordsStep
  | badRequest (error : String) (allowedFields : List String)
  | queryBuilt (built : BuiltQuery)
deriving DecidableEq, Repr

/-- JavaScript `opt || dflt` on an optional string. -/
def jsOrStr (o : Option String) (dflt : String) : String :=
  match o with
  | some s => if s = "" then dflt else s
  | none => dflt

/-- JavaScript `parseInt(opt) || dflt`: `NaN` and `0` both fall back. -/
def jsParseIntOr (o : Option String) (dflt : Int) : Int :=
  match o with
  | some s =>
    match jsParseInt s with
    | some n => if n = 0 then dflt else n
    | none => dflt
  | none => dflt

/-- The `/api/records` handler of the server up to its first storage call:
defaulting of the pagination/sort parameters, then the sort-field guard (HTTP
400 on an unknown field), then `buildSearchQuery` on the three filter
parameters the route forwards. -/
def apiRecordsHandler (queryQ strandQ effectQ pageQ limitQ sortByQ sortOrderQ : Option String) :
    ApiRecordsStep :=
  let searchQuery := jsOrStr queryQ ""
  let strand := jsOrStr strandQ ""
  let effect := jsOrStr effectQ ""
  let page := jsParseIntOr pageQ 1
  let limit := min (jsParseIntOr limitQ 25) 1000
  let sortBy := jsOrStr sortByQ "rowid"
  let sortOrder : String :=
    match sortOrderQ with
    | some s => if jsToUpperCase s = "DESC" then "DESC" else "ASC"
    | none => "ASC"
  if sortBy ∉ allowedSortFields then .badRequest "Invalid sort field" allowedSortFields
  else .queryBuilt (buildSearchQuery
    { query := some searchQuery, strand := some strand, effect := some effect }
    page limit sortBy sortOrder)

/-! ### Claim-side definitions -/

/-- SQLite semantics of the two effect-direction fragments that
`parseSearchQuery` can add (`CAST(log2fc AS REAL) > 0` respectively `< 0`);
an effect value that adds no fragment constrains nothing. -/
def effectMatches (effect : String) (log2fc : ℚ) : Bool :=
  if effect = "up" then decide (0 < log2fc)
  else if effect = "down" then decide (log2fc < 0)
  else true

/-- The ten-element sort-field whitelist exactly as the specification lists
it.  The source's `validSortColumns` also contains `condition`. -/
def claimedSortWhitelist : List String :=
  ["rowid", "chr", "start", "end", "strand", "symbol", "ensg", "log2fc", "effect", "cellline"]

/-- The distinct (cell-line name, condition) pairs of a row group in
first-seen order, following the specification's description of the context
key.  The source's `GeneView.addCellLine` keys contexts by cell-line name
alone. -/
def distinctContextPairs (rows : List DbRow) : List (String × String) :=
  distinctFirstSeen (rows.map (fun r => (r.cellline, r.condition)))

/-- One filter block appends some fragments and equally many placeholder-worth
of bound values to the accumulator, and touches nothing already there. -/
def stepSound (step : QueryParams → SearchArguments → SearchArguments) : Prop :=
  ∀ qp sa, ∃ cs ps,
    (step qp sa).conditions = sa.conditions ++ cs ∧
    (step qp sa).params = sa.params ++ ps ∧
    totalPlaceholders cs = ps.length

/-- The accumulator `sb` extends `sa` by appending only. -/
def extendsArgs (sa sb : SearchArguments) : Prop :=
  ∃ cs ps, sb.conditions = sa.conditions ++ cs ∧ sb.params = sa.params ++ ps

/-! ### Lemmas about the Condition Builder -/

lemma totalPlaceholders_append (l1 l2 : List String) :
    totalPlaceholders (l1 ++ l2) = totalPlaceholders l1 + totalPlaceholders l2 := by
  simp [totalPlaceholders]

lemma stepQuery_sound : stepSound stepQuery := by
  intro qp sa
  unfold stepQuery
  cases h : qp.query with
  | none => exact ⟨[], [], by simp, by simp, rfl⟩
  | some s =>
    dsimp only
    by_cases hc : s ≠ "" ∧ jsTrim s ≠ ""
    · rw [if_pos hc]
      refine ⟨[queryFragment], List.replicate 5 (.vstr ("%" ++ jsTrim s ++ "%")), ?_, ?_, by simp only [List.length_replicate]; decide⟩
      · simp [SearchArguments.addCondition]
      · simp [SearchArguments.addCondition, List.replicate]
    · rw [if_neg hc]
      exact ⟨[], [], by simp, by simp, rfl⟩

lemma stepChr_sound : stepSound stepChr := by
  intro qp sa
  unfold stepChr
  cases h : qp.chr with
  | none => exact ⟨[], [], by simp, by simp, rfl⟩
  | some s =>
    dsimp only
    by_cases hc : s ≠ "" ∧ jsTrim s ≠ ""
    · rw [if_pos hc]
      exact ⟨["chr = ?"], [.vstr (jsTrim s)], rfl, rfl, by simp only [List.length_singleton]; decide⟩
    · rw [if_neg hc]
      exact ⟨[], [], by simp, by simp, rfl⟩

lemma stepStrand_sound : stepSound stepStrand := by
  intro qp sa
  unfold stepStrand
  cases h : qp.strand with
  | none => exact ⟨[], [], by simp, by simp, rfl⟩
  | some s =>
    dsimp only
    by_cases hc : s ≠ "" ∧ (s = "+" ∨ s = "-")
    · rw [if_pos hc]
      exact ⟨["strand = ?"], [.vstr s], rfl, rfl, by simp only [List.length_singleton]; decide⟩
    · rw [if_neg hc]
      exact ⟨[], [], by simp, by simp, rfl⟩

lemma stepEffect_sound : stepSound stepEffect := by
  intro qp sa
  unfold stepEffect
  cases h : qp.effect with
  | none => exact ⟨[], [], by simp, by simp, rfl⟩
  | some s =>
    dsimp only
    by_cases hc : s ≠ ""
    · rw [if_pos hc]
      by_cases hu : s = "up"
      · rw [if_pos hu]
        exact ⟨["CAST(log2fc AS REAL) > ?"], [.vnum 0], rfl, rfl, by simp only [List.length_singleton]; decide⟩
      · rw [if_neg hu]
        by_cases hd : s = "down"
        · rw [if_pos hd]
          exact ⟨["CAST(log2fc AS REAL) < ?"], [.vnum 0], rfl, rfl, by simp only [List.length_singleton]; decide⟩
        · rw [if_neg hd]
          exact ⟨[], [], by simp, by simp, rfl⟩
    · rw [if_neg hc]
      exact ⟨[], [], by simp, by simp, rfl⟩

lemma stepStartPos_sound : stepSound stepStartPos := by
  intro qp sa
  unfold stepStartPos
  cases h : qp.startPos with
  | none => exact ⟨[], [], by simp, by simp, rfl⟩
  | some s =>
    dsimp only
    by_cases hc : s ≠ "" ∧ jsIsNaN s = false
    · rw [if_pos hc]
      exact ⟨["CAST(start AS INTEGER) >= ?"], [intParamOrNaN (jsParseInt s)], rfl, rfl, by simp only [List.length_singleton]; decide⟩
    · rw [if_neg hc]
      exact ⟨[], [], by simp, by simp, rfl⟩

lemma stepEndPos_sound : stepSound stepEndPos := by
  intro qp sa
  unfold stepEndPos
  cases h : qp.endPos with
  | none => exact ⟨[], [], by simp, by simp, rfl⟩
  | some s =>
    dsimp only
    by_cases hc : s ≠ "" ∧ jsIsNaN s = false
    · rw [if_pos hc]
      exact ⟨["CAST(end AS INTEGER) <= ?"], [intParamOrNaN (jsParseInt s)], rfl, rfl, by simp only [List.length_singleton]; decide⟩
    · rw [if_neg hc]
      exact ⟨[], [], by simp, by simp, rfl⟩

lemma stepCellline_sound : stepSound stepCellline := by
  intro qp sa
  unfold stepCellline
  cases h : qp.cellline with
  | none => exact ⟨[], [], by simp, by simp, rfl⟩
  | some s =>
    dsimp only
    by_cases hc : s ≠ "" ∧ jsTrim s ≠ ""
    · rw [if_pos hc]
      exact ⟨["cellline LIKE ?"], [.vstr ("%" ++ jsTrim s ++ "%")], rfl, rfl, by simp only [List.length_singleton]; decide⟩
    · rw [if_neg hc]
      exact ⟨[], [], by simp, by simp, rfl⟩

lemma stepCondition_sound : stepSound stepCondition := by
  intro qp sa
  unfold stepCondition
  cases h : qp.condition with
  | none => exact ⟨[], [], by simp, by simp, rfl⟩
  | some s =>
    dsimp only
    by_cases hc : s ≠ "" ∧ jsTrim s ≠ ""
    · rw [if_pos hc]
      exact ⟨["condition LIKE ?"], [.vstr ("%" ++ jsTrim s ++ "%")], rfl, rfl, by simp only [List.length_singleton]; decide⟩
    · rw [if_neg hc]
      exact ⟨[], [], by simp, by simp, rfl⟩

lemma stepMinLog2fc_sound : stepSound stepMinLog2fc := by
  intro qp sa
  unfold stepMinLog2fc
  cases h : qp.minLog2fc with
  | none => exact ⟨[], [], by simp, by simp, rfl⟩
  | some s =>
    dsimp only
    by_cases hc : s ≠ "" ∧ jsIsNaN s = false
    · rw [if_pos hc]
      exact ⟨["CAST(log2fc AS REAL) >= ?"], [floatParamOrNaN (jsParseFloat s)], rfl, rfl, by simp only [List.length_singleton]; decide⟩
    · rw [if_neg hc]
      exact ⟨[], [], by simp, by simp, rfl⟩

lemma stepMaxLog2fc_sound : stepSound stepMaxLog2fc := by
  intro qp sa
  unfold stepMaxLog2fc
  cases h : qp.maxLog2fc with
  | none => exact ⟨[], [], by simp, by simp, rfl⟩
  | some s =>
    dsimp only
    by_cases hc : s ≠ "" ∧ jsIsNaN s = false
    · rw [if_pos hc]
      exact ⟨["CAST(log2fc AS REAL) <= ?"], [floatParamOrNaN (jsParseFloat s)], rfl, rfl, by simp only [List.length_singleton]; decide⟩
    · rw [if_neg hc]
      exact ⟨[], [], by simp, by simp, rfl⟩

lemma stepScreentype_sound : stepSound stepScreentype := by
  intro qp sa
  unfold stepScreentype
  cases h : qp.screentype with
  | none => exact ⟨[], [], by simp, by simp, rfl⟩
  | some s =>
    dsimp only
    by_cases hc : s ≠ "" ∧ jsTrim s ≠ ""
    · rw [if_pos hc]
      exact ⟨["screentype LIKE ?"], [.vstr ("%" ++ jsTrim s ++ "%")], rfl, rfl, by simp only [List.length_singleton]; decide⟩
    · rw [if_neg hc]
      exact ⟨[], [], by simp, by simp, rfl⟩

lemma stepCas_sound : stepSound stepCas := by
  intro qp sa
  unfold stepCas
  cases h : qp.cas with
  | none => exact ⟨[], [], by simp, by simp, rfl⟩
  | some s =>
    dsimp only
    by_cases hc : s ≠ "" ∧ jsTrim s ≠ ""
    · rw [if_pos hc]
      exact ⟨["cas LIKE ?"], [.vstr ("%" ++ jsTrim s ++ "%")], rfl, rfl, by simp only [List.length_singleton]; decide⟩
    · rw [if_neg hc]
      exact ⟨[], [], by simp, by simp, rfl⟩

lemma stepPubmed_sound : stepSound stepPubmed := by
  intro qp sa
  unfold stepPubmed
  cases h : qp.pubmed with
  | none => exact ⟨[], [], by simp, by simp, rfl⟩
  | some s =>
    dsimp only
    by_cases hc : s ≠ "" ∧ jsTrim s ≠ ""
    · rw [if_pos hc]
      exact ⟨["pubmed = ?"], [.vstr (jsTrim s)], rfl, rfl, by simp only [List.length_singleton]; decide⟩
    · rw [if_neg hc]
      exact ⟨[], [], by simp, by simp, rfl⟩

lemma paramBalanced_step {step : QueryParams → SearchArguments → SearchArguments}
    (hs : stepSound step) (qp : QueryParams) {sa : SearchArguments}
    (hb : paramBalanced sa) : paramBalanced (step qp sa) := by
  obtain ⟨cs, ps, h1, h2, h3⟩ := hs qp sa
  unfold paramBalanced at hb ⊢
  rw [h1, h2, totalPlaceholders_append, List.length_append, hb, h3]

lemma extendsArgs_step {step : QueryParams → SearchArguments → SearchArguments}
    (hs : stepSound step) (qp : QueryParams) (sa : SearchArguments) :
    extendsArgs sa (step qp sa) := by
  obtain ⟨cs, ps, h1, h2, _⟩ := hs qp sa
  exact ⟨cs, ps, h1, h2⟩

lemma extendsArgs_trans {a b c : SearchArguments}
    (h1 : extendsArgs a b) (h2 : extendsArgs b c) : extendsArgs a c := by
  obtain ⟨cs1, ps1, e1, f1⟩ := h1
  obtain ⟨cs2, ps2, e2, f2⟩ := h2
  exact ⟨cs1 ++ cs2, ps1 ++ ps2, by rw [e2, e1, List.append_assoc],
    by rw [f2, f1, List.append_assoc]⟩

lemma paramBalanced_parseSearchQuery (qp : QueryParams) :
    paramBalanced (parseSearchQuery qp) := by
  unfold parseSearchQuery
  apply paramBalanced_step stepPubmed_sound qp
  apply paramBalanced_step stepCas_sound qp
  apply paramBalanced_step stepScreentype_sound qp
  apply paramBalanced_step stepMaxLog2fc_sound qp
  apply paramBalanced_step stepMinLog2fc_sound qp
  apply paramBalanced_step stepCondition_sound qp
  apply paramBalanced_step stepCellline_sound qp
  apply paramBalanced_step stepEndPos_sound qp
  apply paramBalanced_step stepStartPos_sound qp
  apply paramBalanced_step stepEffect_sound qp
  apply paramBalanced_step stepStrand_sound qp
  apply paramBalanced_step stepChr_sound qp
  apply paramBalanced_step stepQuery_sound qp
  rfl

lemma parseSearchQuery_extends_queryStep (qp : QueryParams) :
    extendsArgs (stepQuery qp SearchArguments.empty) (parseSearchQuery qp) := by
  unfold parseSearchQuery
  have t1 := extendsArgs_step stepChr_sound qp (stepQuery qp SearchArguments.empty)
  have t2 := extendsArgs_trans t1 (extendsArgs_step stepStrand_sound qp _)
  have t3 := extendsArgs_trans t2 (extendsArgs_step stepEffect_sound qp _)
  have t4 := extendsArgs_trans t3 (extendsArgs_step stepStartPos_sound qp _)
  have t5 := extendsArgs_trans t4 (extendsArgs_step stepEndPos_sound qp _)
  have t6 := extendsArgs_trans t5 (extendsArgs_step stepCellline_sound qp _)
  have t7 := extendsArgs_trans t6 (extendsArgs_step stepCondition_sound qp _)
  have t8 := extendsArgs_trans t7 (extendsArgs_step stepMinLog2fc_sound qp _)
  have t9 := extendsArgs_trans t8 (extendsArgs_step stepMaxLog2fc_sound qp _)
  have t10 := extendsArgs_trans t9 (extendsArgs_step stepScreentype_sound qp _)
  have t11 := extendsArgs_trans t10 (extendsArgs_step stepCas_sound qp _)
  exact extendsArgs_trans t11 (extendsArgs_step stepPubmed_sound qp _)

lemma stepQuery_on_query (qp : QueryParams) (s : String)
    (hq : qp.query = some s) (hs : jsTrim s ≠ "") :
    stepQuery qp SearchArguments.empty =
      ⟨[queryFragment], List.replicate 5 (.vstr ("%" ++ jsTrim s ++ "%"))⟩ := by
  unfold stepQuery
  rw [hq]
  dsimp only
  have hne : s ≠ "" := by
    intro h
    apply hs
    rw [h]
    rfl
  rw [if_pos ⟨hne, hs⟩]
  rfl

/-! ### Claim theorems: Condition Builder and Query Assembler -/

/-- C9: the Condition Builder is pure and deterministic — two invocations of
`parseSearchQuery` on identical input yield structurally identical condition
lists and parameter lists (the embedding is a pure function of the input, as
the source constructs a fresh `SearchArguments` per call and only reads the
argument object). -/
theorem parseSearchQuery_deterministic (qp1 qp2 : QueryParams) (h : qp1 = qp2) :
    (parseSearchQuery qp1).conditions = (parseSearchQuery qp2).conditions ∧
    (parseSearchQuery qp1).params = (parseSearchQuery qp2).params := by
  subst h
  exact ⟨rfl, rfl⟩

/-- Witness for C9 at a concrete filter input. -/
theorem parseSearchQuery_deterministic_witness :
    (parseSearchQuery { query := some "BRCA1", strand := some "+" }).conditions =
      (parseSearchQuery { query := some "BRCA1", strand := some "+" }).conditions ∧
    (parseSearchQuery { query := some "BRCA1", strand := some "+" }).params =
      (parseSearchQuery { query := some "BRCA1", strand := some "+" }).params :=
  parseSearchQuery_deterministic _ _ rfl

/-- C4: with a non-empty free-text query, the Condition Builder's first
fragment is the five-column text-search fragment, it references five `?`
placeholders, the first five bound values are five copies of the wildcarded
query, and over all recognized filters the total parameter count equals the
total placeholder count. -/
theorem parseSearchQuery_query_placeholder_balance (qp : QueryParams) (s : String)
    (hq : qp.query = some s) (hs : jsTrim s ≠ "") :
    (parseSearchQuery qp).conditions.head? = some queryFragment ∧
    countPlaceholders queryFragment = 5 ∧
    (parseSearchQuery qp).params.take 5 =
      List.replicate 5 (SqlValue.vstr ("%" ++ jsTrim s ++ "%")) ∧
    totalPlaceholders (parseSearchQuery qp).conditions = (parseSearchQuery qp).params.length := by
  obtain ⟨cs, ps, h1, h2⟩ := parseSearchQuery_extends_queryStep qp
  rw [stepQuery_on_query qp s hq hs] at h1 h2
  refine ⟨?_, by decide, ?_, paramBalanced_parseSearchQuery qp⟩
  · rw [h1]
    rfl
  · rw [h2]
    rw [show (5 : ℕ) = (List.replicate 5 (SqlValue.vstr ("%" ++ jsTrim s ++ "%"))).length from
      (List.length_replicate 5 _).symm]
    exact List.take_left _ _

/-- Witness for C4 at the query string `BRCA1`. -/
theorem parseSearchQuery_query_placeholder_balance_witness :
    (parseSearchQuery { query := some "BRCA1" }).conditions.head? = some queryFragment ∧
    countPlaceholders queryFragment = 5 ∧
    (parseSearchQuery { query := some "BRCA1" }).params.take 5 =
      List.replicate 5 (SqlValue.vstr ("%" ++ jsTrim "BRCA1" ++ "%")) ∧
    totalPlaceholders (parseSearchQuery { query := some "BRCA1" }).conditions =
      (parseSearchQuery { query := some "BRCA1" }).params.length :=
  parseSearchQuery_query_placeholder_balance _ "BRCA1" rfl (by decide)

/-- C3 (counterexample): the sort value `condition` lies outside the
whitelist the specification states, yet `buildSearchQuery` does not fall back
to the default field for it — the generated query differs from the
fallback-generated one, embedding `condition` in its ORDER BY clause. -/
theorem sortBy_condition_breaks_claimed_whitelist :
    "condition" ∉ claimedSortWhitelist ∧
    safeSortBy "condition" = "condition" ∧
    (buildSearchQuery {} 1 50 "condition" "ASC").query ≠
      (buildSearchQuery {} 1 50 "rowid" "ASC").query := by
  refine ⟨by decide, by decide, by decide⟩

/-- C3 (amended): for every sort field outside the source's eleven-element
whitelist (the specification's ten plus `condition`), `buildSearchQuery`
falls back to `rowid` and produces exactly the query it would produce for
`rowid` — the raw value never reaches the generated text — and any sort
order whose upper-case form is neither `ASC` nor `DESC` falls back to
ascending. -/
theorem buildSearchQuery_sort_fallback (sortBy sortOrder : String)
    (h : sortBy ∉ validSortColumns) :
    safeSortBy sortBy = "rowid" ∧
    (∀ qp page limit, buildSearchQuery qp page limit sortBy sortOrder =
      buildSearchQuery qp page limit "rowid" sortOrder) ∧
    (jsToUpperCase sortOrder ∉ ["ASC", "DESC"] → safeSortOrder sortOrder = "ASC") := by
  have h1 : safeSortBy sortBy = "rowid" := by
    unfold safeSortBy
    rw [if_neg h]
  refine ⟨h1, fun qp page limit => ?_, fun h2 => ?_⟩
  · unfold buildSearchQuery
    rw [h1, show safeSortBy "rowid" = "rowid" from by decide]
  · unfold safeSortOrder
    rw [if_neg h2]

/-- Witness for C3's amended theorem at the out-of-whitelist field `bogus`. -/
theorem buildSearchQuery_sort_fallback_witness :
    "bogus" ∉ validSortColumns ∧
    safeSortBy "bogus" = "rowid" ∧
    buildSearchQuery {} 1 50 "bogus" "desc" = buildSearchQuery {} 1 50 "rowid" "desc" :=
  ⟨by decide, (buildSearchQuery_sort_fallback "bogus" "desc" (by decide)).1,
    (buildSearchQuery_sort_fallback "bogus" "desc" (by decide)).2.1 {} 1 50⟩

/-- C6: the effect value `up` contributes exactly the strictly-positive
comparison fragment on the effect score, `down` exactly the strictly-negative
one, any other value (and an absent one) contributes no fragment; under the
SQLite semantics of those fragments, the rows with log2fc values `[-1, 0, 2,
3]` matching `up` are exactly the two with values 2 and 3, and a score of
exactly 0 matches neither direction. -/
theorem effect_direction_fragments :
    (∀ qp sa, qp.effect = some "up" →
      stepEffect qp sa = sa.addCondition "CAST(log2fc AS REAL) > ?" (.vnum 0)) ∧
    (∀ qp sa, qp.effect = some "down" →
      stepEffect qp sa = sa.addCondition "CAST(log2fc AS REAL) < ?" (.vnum 0)) ∧
    (∀ qp sa s, qp.effect = some s → s ≠ "up" → s ≠ "down" → stepEffect qp sa = sa) ∧
    (∀ qp sa, qp.effect = none → stepEffect qp sa = sa) ∧
    ([(-1 : ℚ), 0, 2, 3].filter (fun q => effectMatches "up" q) = [2, 3]) ∧
    effectMatches "up" 0 = false ∧
    effectMatches "down" 0 = false := by
  refine ⟨?_, ?_, ?_, ?_, by decide, by decide, by decide⟩
  · intro qp sa h
    unfold stepEffect
    rw [h]
    dsimp only
    rw [if_pos (by decide : ("up" : String) ≠ ""), if_pos rfl]
  · intro qp sa h
    unfold stepEffect
    rw [h]
    dsimp only
    rw [if_pos (by decide : ("down" : String) ≠ ""), if_neg (by decide : ¬("down" : String) = "up"),
      if_pos rfl]
  · intro qp sa s h hu hd
    unfold stepEffect
    rw [h]
    dsimp only
    by_cases hc : s ≠ ""
    · rw [if_pos hc, if_neg hu, if_neg hd]
    · rw [if_neg hc]
  · intro qp sa h
    unfold stepEffect
    rw [h]

/-- Witness for C6 at the effect value `up` on the empty accumulator. -/
theorem effect_direction_fragments_witness :
    stepEffect { effect := some "up" } SearchArguments.empty =
      SearchArguments.empty.addCondition "CAST(log2fc AS REAL) > ?" (.vnum 0) :=
  effect_direction_fragments.1 { effect := some "up" } SearchArguments.empty rfl

/-- C8 (code evaluation at the failing input): a whitespace-only `startPos`
is not skipped by the Condition Builder — `isNaN(" ")` is `false` because
`ToNumber` converts whitespace to `0`, so the guard passes and a fragment is
added whose bound value is `parseInt(" ")`, i.e. `NaN` — contradicting the
specification's guarantee of zero fragments for whitespace-only inputs. -/
theorem whitespace_startPos_produces_fragment :
    (parseSearchQuery { startPos := some " " }).conditions = ["CAST(start AS INTEGER) >= ?"] ∧
    (parseSearchQuery { startPos := some " " }).params = [SqlValue.vnan] ∧
    jsIsNaN " " = false ∧
    jsParseInt " " = none := by
  refine ⟨by decide, by decide, by decide, by decide⟩

/-! ### Lemmas about the Hierarchical View Assembler -/

lemma jsParseFloat_one : jsParseFloat "1" = some 1 := by
  simp only [jsParseFloat]
  rw [show scanUnsignedDecimal (scanSign ("1".data.dropWhile Char.isWhitespace)).2
      = some (⟨['1'], [], 0⟩, []) from by decide]
  norm_num [DecLit.value, digitsToNat,
    show (scanSign (List.dropWhile Char.isWhitespace ['1'])).1 = 1 from by decide,
    show '1'.toNat - 48 = 1 from by decide]

lemma pushSgRNA_map_fst (cls : List (String × CellLineView)) (name : String) (sg : SgRNAView) :
    (pushSgRNA cls name sg).map Prod.fst = cls.map Prod.fst := by
  induction cls with
  | nil => rfl
  | cons kc rest ih =>
    obtain ⟨k, cl⟩ := kc
    simp only [pushSgRNA]
    by_cases h : k = name
    · rw [if_pos h]
      simp
    · rw [if_neg h]
      simp [ih]

lemma pushSgRNA_count (cls : List (String × CellLineView)) (name : String) (sg : SgRNAView)
    (h : name ∈ cls.map Prod.fst) :
    ((pushSgRNA cls name sg).map (fun kc => kc.2.sgRNAs.length)).sum
      = ((cls.map (fun kc => kc.2.sgRNAs.length)).sum) + 1 := by
  induction cls with
  | nil => simp at h
  | cons kc rest ih =>
    obtain ⟨k, cl⟩ := kc
    simp only [pushSgRNA]
    by_cases hk : k = name
    · rw [if_pos hk]
      simp
      omega
    · rw [if_neg hk]
      have h' : name ∈ rest.map Prod.fst := by
        simp only [List.map_cons, List.mem_cons] at h
        rcases h with h1 | h1
        · exact absurd h1.symm hk
        · exact h1
      simp [ih h']
      omega

lemma ensureCellLine_count (cls : List (String × CellLineView)) (d : DbRow) :
    ((ensureCellLine cls d).map (fun kc => kc.2.sgRNAs.length)).sum
      = (cls.map (fun kc => kc.2.sgRNAs.length)).sum := by
  unfold ensureCellLine
  split
  · rfl
  · simp

lemma ensureCellLine_mem (cls : List (String × CellLineView)) (d : DbRow) :
    d.cellline ∈ (ensureCellLine cls d).map Prod.fst := by
  unfold ensureCellLine
  split
  · assumption
  · simp

lemma ensureCellLine_map_fst (cls : List (String × CellLineView)) (d : DbRow) :
    (ensureCellLine cls d).map Prod.fst = distinctStep (cls.map Prod.fst) d.cellline := by
  unfold ensureCellLine distinctStep
  split
  · rfl
  · simp

lemma addCellLine_count (gv : GeneView) (d : DbRow) :
    (gv.addCellLine d).getTotalSgRNACount = gv.getTotalSgRNACount + 1 := by
  unfold GeneView.addCellLine GeneView.getTotalSgRNACount
  dsimp only
  rw [pushSgRNA_count _ _ _ (ensureCellLine_mem gv.cellLines d), ensureCellLine_count]

lemma addCellLine_map_fst (gv : GeneView) (d : DbRow) :
    (gv.addCellLine d).cellLines.map Prod.fst = distinctStep (gv.cellLines.map Prod.fst) d.cellline := by
  unfold GeneView.addCellLine
  dsimp only
  rw [pushSgRNA_map_fst, ensureCellLine_map_fst]

lemma foldl_addCellLine_count (rows : List DbRow) (gv : GeneView) :
    (rows.foldl (fun gv r => gv.addCellLine { r with id := jsOrOpt r.rowid r.id }) gv).getTotalSgRNACount
      = gv.getTotalSgRNACount + rows.length := by
  induction rows generalizing gv with
  | nil => simp
  | cons r rest ih =>
    simp only [List.foldl_cons, List.length_cons]
    rw [ih, addCellLine_count]
    omega

lemma foldl_addCellLine_map_fst (rows : List DbRow) (gv : GeneView) :
    (rows.foldl (fun gv r => gv.addCellLine { r with id := jsOrOpt r.rowid r.id }) gv).cellLines.map Prod.fst
      = List.foldl distinctStep (gv.cellLines.map Prod.fst) (rows.map DbRow.cellline) := by
  induction rows generalizing gv with
  | nil => rfl
  | cons r rest ih =>
    simp only [List.foldl_cons, List.map_cons]
    rw [ih, addCellLine_map_fst]

/-! ### Claim theorems: Hierarchical View Assembler -/

/-- C1: on every non-empty row group, the view built by `GeneView.fromDbRows`
holds exactly one measurement entity per input row — the per-context sgRNA
list lengths sum to the row count, and `getTotalSgRNACount` reports exactly
that row count. -/
theorem fromDbRows_total_count (rows : List DbRow) (hne : rows ≠ []) :
    (GeneView.fromDbRows rows).map
        (fun gv => (gv.cellLines.map (fun kc => kc.2.sgRNAs.length)).sum) = some rows.length ∧
    (GeneView.fromDbRows rows).map GeneView.getTotalSgRNACount = some rows.length := by
  cases rows with
  | nil => exact absurd rfl hne
  | cons first rest =>
    unfold GeneView.fromDbRows
    have h := foldl_addCellLine_count (first :: rest)
      { symbol := first.symbol, ensg := first.ensg, chr := first.chr, cellLines := [] }
    have h0 : (GeneView.mk first.symbol first.ensg first.chr []).getTotalSgRNACount = 0 := rfl
    rw [h0, Nat.zero_add] at h
    constructor
    · simpa [GeneView.getTotalSgRNACount, List.foldl_cons] using h
    · simpa [List.foldl_cons] using h

/-- Witness for C1: a concrete three-row group across two cell lines. -/
theorem fromDbRows_total_count_witness :
    (GeneView.fromDbRows
        [{ symbol := "BRCA1", cellline := "HeLa" }, { symbol := "BRCA1", cellline := "HeLa" },
         { symbol := "BRCA1", cellline := "K562" }]).map
        (fun gv => (gv.cellLines.map (fun kc => kc.2.sgRNAs.length)).sum) = some 3 ∧
    (GeneView.fromDbRows
        [{ symbol := "BRCA1", cellline := "HeLa" }, { symbol := "BRCA1", cellline := "HeLa" },
         { symbol := "BRCA1", cellline := "K562" }]).map GeneView.getTotalSgRNACount = some 3 :=
  fromDbRows_total_count _ (by simp)

/-- C2 (counterexample): two rows with the same cell line but different
conditions form a single context group in the `GeneView` built by
`fromDbRows`, although they carry two distinct (cell-line, condition) pairs —
the assembler keys contexts by cell-line name alone. -/
theorem geneView_groups_ignore_condition :
    (GeneView.fromDbRows
        [{ symbol := "BRCA1", cellline := "HeLa", condition := "control" },
         { symbol := "BRCA1", cellline := "HeLa", condition := "treated" }]).map
      (fun gv => gv.cellLines.length) = some 1 ∧
    (distinctContextPairs
        [{ symbol := "BRCA1", cellline := "HeLa", condition := "control" },
         { symbol := "BRCA1", cellline := "HeLa", condition := "treated" }]).length = 2 := by
  exact ⟨by decide, by decide⟩

/-- C2 (amended): the context groups of the view built by
`GeneView.fromDbRows` are keyed by cell-line name alone — their keys are
exactly the distinct cell-line names of the input rows in first-seen input
order (so their number is the number of distinct cell-line names, not of
distinct (cell-line, condition) pairs). -/
theorem fromDbRows_context_keys (rows : List DbRow) (hne : rows ≠ []) :
    (GeneView.fromDbRows rows).map (fun gv => gv.cellLines.map Prod.fst)
      = some (distinctFirstSeen (rows.map DbRow.cellline)) := by
  cases rows with
  | nil => exact absurd rfl hne
  | cons first rest =>
    unfold GeneView.fromDbRows
    have h := foldl_addCellLine_map_fst (first :: rest)
      { symbol := first.symbol, ensg := first.ensg, chr := first.chr, cellLines := [] }
    simpa [distinctFirstSeen] using h

/-- Witness for C2's amended theorem on the counterexample rows: one context
key, `HeLa`. -/
theorem fromDbRows_context_keys_witness :
    (GeneView.fromDbRows
        [{ symbol := "BRCA1", cellline := "HeLa", condition := "control" },
         { symbol := "BRCA1", cellline := "HeLa", condition := "treated" }]).map
      (fun gv => gv.cellLines.map Prod.fst)
      = some (distinctFirstSeen
          ([{ symbol := "BRCA1", cellline := "HeLa", condition := "control" },
            { symbol := "BRCA1", cellline := "HeLa", condition := "treated" }].map DbRow.cellline)) :=
  fromDbRows_context_keys _ (by simp)

/-- C5: for every row, the formatted entity's length is `|end - start| + 1`
and its midpoint is `floor((start + end) / 2)` whenever both bounds parse as
numbers (and both are null otherwise), its fold-change is `2 ^ log2fc`
whenever `log2fc` parses (and null otherwise); in particular the row
`{start: 100, end: 200, log2fc: "1"}` formats to midpoint 150, length 101,
fold-change 2. -/
theorem sgRNAView_derived_fields (d : DbRow) :
    (∀ s e, jsParseIntVal d.start = some s → jsParseIntVal d.stop = some e →
      (SgRNAView.ofData d).getLength = some (((e - s).natAbs : Int) + 1) ∧
      (SgRNAView.ofData d).getMidpoint = some (Int.fdiv (s + e) 2)) ∧
    (jsParseIntVal d.start = none ∨ jsParseIntVal d.stop = none →
      (SgRNAView.ofData d).getLength = none ∧ (SgRNAView.ofData d).getMidpoint = none) ∧
    (∀ q, jsParseFloatVal d.log2fc = some q →
      (SgRNAView.ofData d).getFoldChange = some ((2 : ℝ) ^ (q : ℝ))) ∧
    (jsParseFloatVal d.log2fc = none → (SgRNAView.ofData d).getFoldChange = none) ∧
    ((SgRNAView.ofData { start := .vint 100, stop := .vint 200, log2fc := .vstr "1" }).getMidpoint
        = some 150 ∧
     (SgRNAView.ofData { start := .vint 100, stop := .vint 200, log2fc := .vstr "1" }).getLength
        = some 101 ∧
     (SgRNAView.ofData { start := .vint 100, stop := .vint 200, log2fc := .vstr "1" }).getFoldChange
        = some 2) := by
  refine ⟨?_, ?_, ?_, ?_, ?_, ?_, ?_⟩
  · intro s e hs he
    constructor
    · simp [SgRNAView.getLength, SgRNAView.ofData, hs, he]
    · simp [SgRNAView.getMidpoint, SgRNAView.ofData, hs, he]
  · intro h
    rcases h with h | h
    · constructor
      · simp [SgRNAView.getLength, SgRNAView.ofData, h]
      · simp [SgRNAView.getMidpoint, SgRNAView.ofData, h]
    · constructor
      · simp [SgRNAView.getLength, SgRNAView.ofData, h]
      · simp [SgRNAView.getMidpoint, SgRNAView.ofData, h]
  · intro q hq
    simp [SgRNAView.getFoldChange, SgRNAView.ofData, hq]
  · intro hq
    simp [SgRNAView.getFoldChange, SgRNAView.ofData, hq]
  · decide
  · decide
  · have h1 : jsParseFloatVal (DbVal.vstr "1") = some 1 := jsParseFloat_one
    simp [SgRNAView.getFoldChange, SgRNAView.ofData, h1]

/-- Witness for C5 at the specification's scenario row. -/
theorem sgRNAView_derived_fields_witness :
    (SgRNAView.ofData { start := .vint 100, stop := .vint 200, log2fc := .vstr "1" }).getLength
        = some (((200 - 100 : Int).natAbs : Int) + 1) ∧
    (SgRNAView.ofData { start := .vint 100, stop := .vint 200, log2fc := .vstr "1" }).getMidpoint
        = some (Int.fdiv (100 + 200) 2) ∧
    (SgRNAView.ofData { start := .vint 100, stop := .vint 200, log2fc := .vstr "1" }).getFoldChange
        = some 2 := by
  have h := sgRNAView_derived_fields { start := .vint 100, stop := .vint 200, log2fc := .vstr "1" }
  exact ⟨(h.1 100 200 rfl rfl).1, (h.1 100 200 rfl rfl).2, h.2.2.2.2.2.2⟩

/-! ### Lemmas about grouping and pagination -/

lemma mem_foldl_distinctStep {α : Type} [DecidableEq α] (l : List α) (acc : List α) (x : α) :
    x ∈ l.foldl distinctStep acc ↔ x ∈ acc ∨ x ∈ l := by
  induction l generalizing acc with
  | nil => simp
  | cons a t ih =>
    simp only [List.foldl_cons, ih, distinctStep]
    by_cases h : a ∈ acc
    · rw [if_pos h]
      simp only [List.mem_cons]
      constructor
      · rintro (h1 | h1)
        · exact Or.inl h1
        · exact Or.inr (Or.inr h1)
      · rintro (h1 | h1 | h1)
        · exact Or.inl h1
        · exact Or.inl (h1 ▸ h)
        · exact Or.inr h1
    · rw [if_neg h]
      simp only [List.mem_append, List.mem_singleton, List.mem_cons]
      tauto

lemma distinctStep_nodup {α : Type} [DecidableEq α] {acc : List α} (h : acc.Nodup) (a : α) :
    (distinctStep acc a).Nodup := by
  unfold distinctStep
  by_cases ha : a ∈ acc
  · rw [if_pos ha]
    exact h
  · rw [if_neg ha]
    simp [List.nodup_append, h, ha]

lemma foldl_distinctStep_nodup {α : Type} [DecidableEq α] (l : List α) {acc : List α}
    (h : acc.Nodup) : (l.foldl distinctStep acc).Nodup := by
  induction l generalizing acc with
  | nil => exact h
  | cons a t ih =>
    simp only [List.foldl_cons]
    exact ih (distinctStep_nodup h a)

lemma distinctFirstSeen_mem {α : Type} [DecidableEq α] (l : List α) (x : α) :
    x ∈ distinctFirstSeen l ↔ x ∈ l := by
  unfold distinctFirstSeen
  rw [mem_foldl_distinctStep]
  simp

lemma distinctFirstSeen_nodup {α : Type} [DecidableEq α] (l : List α) :
    (distinctFirstSeen l).Nodup :=
  foldl_distinctStep_nodup l List.nodup_nil

lemma distinctFirstSeen_length {α : Type} [DecidableEq α] (l : List α) :
    (distinctFirstSeen l).length = l.toFinset.card := by
  rw [← List.toFinset_card_of_nodup (distinctFirstSeen_nodup l)]
  congr 1
  ext x
  simp [List.mem_toFinset, distinctFirstSeen_mem]

lemma insertGrouped_map {α : Type} (key : α → String) (ss : List String)
    (F : String → List α) (a : α) (hnd : ss.Nodup) :
    insertGrouped key (ss.map (fun s => (s, F s))) a =
      if key a ∈ ss then ss.map (fun s => (s, F s ++ if key a = s then [a] else []))
      else ss.map (fun s => (s, F s)) ++ [(key a, [a])] := by
  induction ss with
  | nil => simp [insertGrouped]
  | cons s0 rest ih =>
    have hnd' : rest.Nodup := (List.nodup_cons.mp hnd).2
    have hs0 : s0 ∉ rest := (List.nodup_cons.mp hnd).1
    simp only [List.map_cons, insertGrouped]
    by_cases h0 : key a = s0
    · rw [if_pos h0, if_pos (by simp [h0])]
      congr 1
      · simp [h0]
      · refine (List.map_congr_left fun s hs => ?_).symm
        have hne : ¬ key a = s := by
          intro he
          exact hs0 ((h0.symm.trans he).symm ▸ hs)
        rw [if_neg hne, List.append_nil]
    · rw [if_neg h0, ih hnd']
      by_cases hmem : key a ∈ rest
      · rw [if_pos hmem, if_pos (by simp [hmem])]
        congr 1
        rw [if_neg h0, List.append_nil]
      · rw [if_neg hmem, if_neg (by simp [h0, hmem])]
        simp

lemma distinctFirstSeen_append_singleton {α : Type} [DecidableEq α] (l : List α) (x : α) :
    distinctFirstSeen (l ++ [x]) = distinctStep (distinctFirstSeen l) x := by
  unfold distinctFirstSeen
  rw [List.foldl_append]
  rfl

lemma groupBy_eq {α : Type} (key : α → String) (l : List α) :
    groupBy key l = (distinctFirstSeen (l.map key)).map
      (fun s => (s, l.filter (fun a => key a = s))) := by
  induction l using List.reverseRecOn with
  | nil => rfl
  | append_singleton l a ih =>
    have hstep : groupBy key (l ++ [a]) = insertGrouped key (groupBy key l) a := by
      unfold groupBy
      rw [List.foldl_append]
      rfl
    rw [hstep, ih]
    simp only [List.map_append, List.map_singleton]
    rw [distinctFirstSeen_append_singleton,
      insertGrouped_map key _ _ a (distinctFirstSeen_nodup _)]
    unfold distinctStep
    by_cases hmem : key a ∈ distinctFirstSeen (l.map key)
    · rw [if_pos hmem, if_pos hmem]
      refine List.map_congr_left fun s hs => ?_
      congr 1
      rw [List.filter_append]
      congr 1
      by_cases he : key a = s
      · simp [List.filter, he]
      · simp [List.filter, he]
    · rw [if_neg hmem, if_neg hmem, List.map_append]
      congr 1
      · refine List.map_congr_left fun s hs => ?_
        congr 1
        rw [List.filter_append]
        have he : ¬ key a = s := fun h => hmem (h ▸ hs)
        simp [List.filter, he]
      · simp [List.filter_append, List.filter]
        intro b hb he2
        exact hmem ((distinctFirstSeen_mem _ _).mpr (he2 ▸ List.mem_map_of_mem key hb))

lemma natCeil_div_eq (n l : ℕ) (hl : 0 < l) :
    ⌈(n : ℚ) / (l : ℚ)⌉₊ = (n + l - 1) / l := by
  rw [← Nat.ceilDiv_eq_add_pred_div]
  have key : ∀ c : ℕ, ⌈(n : ℚ) / (l : ℚ)⌉₊ ≤ c ↔ n ⌈/⌉ l ≤ c := by
    intro c
    rw [Nat.ceil_le, div_le_iff₀ (by positivity), ceilDiv_le_iff_le_mul hl]
    constructor
    · intro h
      exact_mod_cast (mul_comm (c : ℚ) (l : ℚ)) ▸ h
    · intro h
      exact_mod_cast (mul_comm (l : ℚ) (c : ℚ)) ▸ (by exact_mod_cast h : (n : ℚ) ≤ (l : ℚ) * c)
  exact le_antisymm ((key _).mpr le_rfl) ((key _).mp le_rfl)

/-! ### Claim theorems: pagination post-processor and API sort guard -/

/-- C7: for grouped gene pagination, `getGeneViewResults` reports as
`totalRows` the number of distinct gene symbols among all matching rows, as
`totalPages` the ceiling of that count over the page size, and as `results`
exactly the slice `[(page-1)*limit, (page-1)*limit + limit)` of the gene
views — one per distinct symbol in first-seen order, each built from all of
that symbol's rows — computed after grouping the full unlimited row set. -/
theorem getGeneViewResults_pagination (allRows : List DbRow) (page limit : ℕ)
    (_hp : 1 ≤ page) (hl : 1 ≤ limit) :
    (getGeneViewResults allRows page limit).totalRows
        = (allRows.map DbRow.symbol).toFinset.card ∧
    (getGeneViewResults allRows page limit).totalPages
        = ((getGeneViewResults allRows page limit).totalRows + limit - 1) / limit ∧
    (getGeneViewResults allRows page limit).results
        = (((distinctFirstSeen (allRows.map DbRow.symbol)).map
            (fun s => GeneView.fromDbRows (allRows.filter (fun r => r.symbol = s)))).drop
              ((page - 1) * limit)).take limit := by
  refine ⟨?_, ?_, ?_⟩
  · show ((groupBy DbRow.symbol allRows).map (fun g => GeneView.fromDbRows g.2)).length = _
    rw [List.length_map, groupBy_eq, List.length_map, distinctFirstSeen_length]
  · show ⌈(((((groupBy DbRow.symbol allRows).map
        (fun g => GeneView.fromDbRows g.2)).length) : ℚ)) / (limit : ℚ)⌉₊ = _
    rw [natCeil_div_eq _ _ (by omega)]
    rfl
  · show jsSlice ((groupBy DbRow.symbol allRows).map (fun g => GeneView.fromDbRows g.2))
        ((page - 1) * limit) ((page - 1) * limit + limit) = _
    rw [groupBy_eq, List.map_map]
    unfold jsSlice
    rw [Nat.add_sub_cancel_left]
    rfl

/-- Witness for C7: three rows over two genes, first page of size ten. -/
theorem getGeneViewResults_pagination_witness :
    (getGeneViewResults
        [{ symbol := "BRCA1", cellline := "HeLa" }, { symbol := "TP53", cellline := "K562" },
         { symbol := "BRCA1", cellline := "HeLa" }] 1 10).totalRows
        = ([{ symbol := "BRCA1", cellline := "HeLa" }, { symbol := "TP53", cellline := "K562" },
            { symbol := "BRCA1", cellline := "HeLa" }].map DbRow.symbol).toFinset.card ∧
    (getGeneViewResults
        [{ symbol := "BRCA1", cellline := "HeLa" }, { symbol := "TP53", cellline := "K562" },
         { symbol := "BRCA1", cellline := "HeLa" }] 1 10).totalPages
        = ((getGeneViewResults
            [{ symbol := "BRCA1", cellline := "HeLa" }, { symbol := "TP53", cellline := "K562" },
             { symbol := "BRCA1", cellline := "HeLa" }] 1 10).totalRows + 10 - 1) / 10 ∧
    (getGeneViewResults
        [{ symbol := "BRCA1", cellline := "HeLa" }, { symbol := "TP53", cellline := "K562" },
         { symbol := "BRCA1", cellline := "HeLa" }] 1 10).results
        = (((distinctFirstSeen
            ([{ symbol := "BRCA1", cellline := "HeLa" }, { symbol := "TP53", cellline := "K562" },
              { symbol := "BRCA1", cellline := "HeLa" }].map DbRow.symbol)).map
            (fun s => GeneView.fromDbRows
              ([{ symbol := "BRCA1", cellline := "HeLa" }, { symbol := "TP53", cellline := "K562" },
                { symbol := "BRCA1", cellline := "HeLa" }].filter (fun r => r.symbol = s)))).drop
              ((1 - 1) * 10)).take 10 :=
  getGeneViewResults_pagination _ 1 10 (by decide) (by decide)

/-- C10: at the `/api/records` endpoint, every request carrying a sort field
outside the ten-element whitelist is answered with the HTTP 400 payload
listing the allowed fields, before any query is built or any storage call is
made — the field is not mapped to the default. -/
theorem apiRecords_invalid_sort_rejected
    (queryQ strandQ effectQ pageQ limitQ sortOrderQ : Option String) (s : String)
    (h1 : s ∉ allowedSortFields) (h2 : s ≠ "") :
    apiRecordsHandler queryQ strandQ effectQ pageQ limitQ (some s) sortOrderQ
      = .badRequest "Invalid sort field" allowedSortFields := by
  have hs : jsOrStr (some s) "rowid" = s := by
    simp [jsOrStr, h2]
  simp only [apiRecordsHandler, hs]
  rw [if_pos h1]

/-- Witness for C10 at the out-of-whitelist sort field `bogus`. -/
theorem apiRecords_invalid_sort_rejected_witness :
    apiRecordsHandler none none none none none (some "bogus") none
      = .badRequest "Invalid sort field" allowedSortFields :=
  apiRecords_invalid_sort_rejected none none none none none none "bogus" (by decide) (by decide)

/-! ### Claim theorems: the two row-to-entity formatters -/

/-- C5 (counterexample): the flat-path formatter `Gene.fromDbRow` breaks the
claimed formulas on rows whose inputs all parse as numbers: with a sequence
present its length is the sequence length (4, not |200-100|+1 = 101), and
with start = 0 both bounds parse yet midpoint and length are null, because
the `gene.start && gene.end` truthiness guard treats 0 as absent. -/
theorem geneFromDbRow_breaks_derived_formulas :
    jsParseIntVal (DbVal.vint 100) = some 100 ∧
    jsParseIntVal (DbVal.vint 200) = some 200 ∧
    Gene.fromDbRow_length { start := .vint 100, stop := .vint 200, sequence := "ACGT" } = some 4 ∧
    Gene.fromDbRow_length { start := .vint 100, stop := .vint 200, sequence := "ACGT" }
      ≠ some (((200 - 100 : Int).natAbs : Int) + 1) ∧
    jsParseIntVal (DbVal.vint 0) = some 0 ∧
    Gene.fromDbRow_midpoint { start := .vint 0, stop := .vint 200 } = none ∧
    Gene.fromDbRow_length { start := .vint 0, stop := .vint 200 } = none := by
  refine ⟨rfl, rfl, by decide, by decide, rfl, by decide, by decide⟩

/-- C5 (amended): the hierarchical-path formatter `SgRNAView` satisfies the
claimed formulas exactly — length `|end-start|+1`, midpoint
`floor((start+end)/2)`, fold-change `2^log2fc` whenever the inputs parse,
null whenever they do not, with the scenario row `{start: 100, end: 200,
log2fc: "1"}` giving 150, 101 and 2.  The flat-path formatter
`Gene.fromDbRow` computes fold-change as claimed, but its length is the
sequence length whenever a non-empty sequence is present (the interval
formula applies only without a sequence), and its midpoint and
sequence-less length are null not only when a bound fails to parse but also
when a bound parses to 0, because of the truthiness guard. -/
theorem rowFormatter_derived_fields (d : DbRow) :
    (∀ s e, jsParseIntVal d.start = some s → jsParseIntVal d.stop = some e →
      (SgRNAView.ofData d).getLength = some (((e - s).natAbs : Int) + 1) ∧
      (SgRNAView.ofData d).getMidpoint = some (Int.fdiv (s + e) 2)) ∧
    (jsParseIntVal d.start = none ∨ jsParseIntVal d.stop = none →
      (SgRNAView.ofData d).getLength = none ∧ (SgRNAView.ofData d).getMidpoint = none) ∧
    (∀ q, jsParseFloatVal d.log2fc = some q →
      (SgRNAView.ofData d).getFoldChange = some ((2 : ℝ) ^ (q : ℝ)) ∧
      Gene.fromDbRow_foldChange d = some ((2 : ℝ) ^ (q : ℝ))) ∧
    (jsParseFloatVal d.log2fc = none →
      (SgRNAView.ofData d).getFoldChange = none ∧ Gene.fromDbRow_foldChange d = none) ∧
    (d.sequence ≠ "" → Gene.fromDbRow_length d = some (d.sequence.length : Int)) ∧
    (∀ s e, d.sequence = "" → jsParseIntVal d.start = some s → jsParseIntVal d.stop = some e →
      s ≠ 0 → e ≠ 0 → Gene.fromDbRow_length d = some (((e - s).natAbs : Int) + 1)) ∧
    (∀ s e, jsParseIntVal d.start = some s → jsParseIntVal d.stop = some e → s ≠ 0 → e ≠ 0 →
      Gene.fromDbRow_midpoint d = some (Int.fdiv (s + e) 2)) ∧
    ((jsParseIntVal d.start = none ∨ jsParseIntVal d.stop = none ∨
        jsParseIntVal d.start = some 0 ∨ jsParseIntVal d.stop = some 0) →
      Gene.fromDbRow_midpoint d = none ∧
        (d.sequence = "" → Gene.fromDbRow_length d = none)) ∧
    ((SgRNAView.ofData { start := .vint 100, stop := .vint 200, log2fc := .vstr "1" }).getMidpoint
        = some 150 ∧
     (SgRNAView.ofData { start := .vint 100, stop := .vint 200, log2fc := .vstr "1" }).getLength
        = some 101 ∧
     (SgRNAView.ofData { start := .vint 100, stop := .vint 200, log2fc := .vstr "1" }).getFoldChange
        = some 2 ∧
     Gene.fromDbRow_midpoint { start := .vint 100, stop := .vint 200, log2fc := .vstr "1" }
        = some 150 ∧
     Gene.fromDbRow_length { start := .vint 100, stop := .vint 200, log2fc := .vstr "1" }
        = some 101 ∧
     Gene.fromDbRow_foldChange { start := .vint 100, stop := .vint 200, log2fc := .vstr "1" }
        = some 2) := by
  have h := sgRNAView_derived_fields d
  refine ⟨h.1, h.2.1, ?_, ?_, ?_, ?_, ?_, ?_, ?_⟩
  · intro q hq
    refine ⟨h.2.2.1 q hq, ?_⟩
    simp [Gene.fromDbRow_foldChange, hq]
  · intro hq
    refine ⟨h.2.2.2.1 hq, ?_⟩
    simp [Gene.fromDbRow_foldChange, hq]
  · intro hseq
    unfold Gene.fromDbRow_length
    rw [if_pos hseq]
  · intro s e hseq hs he hs0 he0
    unfold Gene.fromDbRow_length Gene.fromDbRow_start Gene.fromDbRow_stop
    rw [if_neg (by simp [hseq]), hs, he]
    dsimp only
    rw [if_pos ⟨hs0, he0⟩]
  · intro s e hs he hs0 he0
    unfold Gene.fromDbRow_midpoint Gene.fromDbRow_start Gene.fromDbRow_stop
    rw [hs, he]
    dsimp only
    rw [if_pos ⟨hs0, he0⟩]
  · intro h'
    have hmid : Gene.fromDbRow_midpoint d = none := by
      unfold Gene.fromDbRow_midpoint Gene.fromDbRow_start Gene.fromDbRow_stop
      rcases hstart : jsParseIntVal d.start with _ | s
      · rfl
      · rcases hstop : jsParseIntVal d.stop with _ | e
        · rfl
        · rw [hstart, hstop] at h'
          simp at h'
          dsimp only
          rw [if_neg (by rintro ⟨hs0, he0⟩; rcases h' with h0 | h0; exacts [hs0 h0, he0 h0])]
    have hlen : d.sequence = "" → Gene.fromDbRow_length d = none := by
      intro hseq
      unfold Gene.fromDbRow_length Gene.fromDbRow_start Gene.fromDbRow_stop
      rw [if_neg (by simp [hseq])]
      rcases hstart : jsParseIntVal d.start with _ | s
      · rfl
      · rcases hstop : jsParseIntVal d.stop with _ | e
        · rfl
        · rw [hstart, hstop] at h'
          simp at h'
          dsimp only
          rw [if_neg (by rintro ⟨hs0, he0⟩; rcases h' with h0 | h0; exacts [hs0 h0, he0 h0])]
    exact ⟨hmid, hlen⟩
  · have h1 : jsParseFloatVal (DbVal.vstr "1") = some 1 := jsParseFloat_one
    refine ⟨h.2.2.2.2.1, h.2.2.2.2.2.1, h.2.2.2.2.2.2, by decide, by decide, ?_⟩
    simp [Gene.fromDbRow_foldChange, h1]

/-- Witness for C5's amended theorem at the scenario row (no sequence, so the
interval formula applies to both formatters). -/
theorem rowFormatter_derived_fields_witness :
    (SgRNAView.ofData { start := .vint 100, stop := .vint 200, log2fc := .vstr "1" }).getLength
        = some (((200 - 100 : Int).natAbs : Int) + 1) ∧
    Gene.fromDbRow_length { start := .vint 100, stop := .vint 200, log2fc := .vstr "1" }
        = some (((200 - 100 : Int).natAbs : Int) + 1) ∧
    Gene.fromDbRow_midpoint { start := .vint 100, stop := .vint 200, log2fc := .vstr "1" }
        = some (Int.fdiv (100 + 200) 2) := by
  have h := rowFormatter_derived_fields { start := .vint 100, stop := .vint 200, log2fc := .vstr "1" }
  exact ⟨(h.1 100 200 rfl rfl).1,
    h.2.2.2.2.2.1 100 200 rfl rfl rfl (by decide) (by decide),
    h.2.2.2.2.2.2.1 100 200 rfl rfl (by decide) (by decide)⟩

/-- C10 (counterexample): a request with an empty `sortBy` value — a value
outside the whitelist — is not rejected: the handler's `req.query.sortBy ||
'rowid'` defaulting treats the empty string as absent and silently proceeds
to build the query with the default sort field `rowid`. -/
theorem apiRecords_empty_sortBy_not_rejected :
    "" ∉ allowedSortFields ∧
    apiRecordsHandler none none none none none (some "") none
      = .queryBuilt (buildSearchQuery { query := some "", strand := some "", effect := some "" }
          1 25 "rowid" "ASC") := by
  exact ⟨by decide, by decide⟩
